import Mathlib

/-!
Shallow embedding of the PRECEDENT front end (React, JavaScript) in Lean 4.

The embedded modules:
  * `Dashboard` — the case-intake form, its validation, the four-stage
    analysis workflow (`form`, `confirmation`, `analyzing`, `results`),
    and the results view (src/frontend/src/components/Dashboard.js);
  * `AuthCtx` — the session/auth manager holding current-user state, the
    bearer token persisted in client storage under the key
    `precedent_token`, and the external verify/login/logout contract
    (AuthContext.js, provided unnamed in the repository).

React state updates are modelled as pure state transformers: each event
handler is a function from the component state (plus an oracle value
standing for the external HTTP endpoint's response) to the new state,
together with the lists of HTTP requests issued and client-storage
operations performed.  Async handlers run atomically except where the
intermediate state is observable (`handleConfirmAndAnalyze` shows the
`analyzing` stage while awaiting, so it is split into a start and a
finish step).
-/

namespace Dashboard

/-- The four values ever assigned to the `activeTab` state variable. -/
inductive Tab
  | form
  | confirmation
  | analyzing
  | results
  deriving DecidableEq, Repr

/-- The `formData` state object: three string fields. -/
structure FormData where
  crime_code : String
  jurisdiction : String
  additional_info : String
  deriving DecidableEq, Repr

/-- The `errors` state object.  In the JavaScript it is a plain object
whose keys are the field names; a field maps to `none` when the key is
absent and to `some msg` when the key is present with value `msg`
(`handleInputChange` clears an error by writing the empty string, which
is falsy but keeps the key). -/
structure Errors where
  crime_code : Option String
  jurisdiction : Option String
  additional_info : Option String
  deriving DecidableEq, Repr

/-- The empty errors object `{}`. -/
def noErrors : Errors := ⟨none, none, none⟩

/-- JavaScript `String.prototype.trim`: strip leading and trailing
whitespace (structurally, over the character list, so that it
evaluates by kernel reduction). -/
def jsTrim (s : String) : String :=
  ⟨((s.data.dropWhile Char.isWhitespace).reverse.dropWhile Char.isWhitespace).reverse⟩

/-- JavaScript truthiness of an object field holding a string:
absent keys and the empty string are falsy. -/
def truthy : Option String → Bool
  | none => false
  | some s => s ≠ ""

/-- `validateForm` (Dashboard.js lines 37–54): builds a fresh `newErrors`
object, adding a message per violated field, and stores it with
`setErrors`.  The caller receives `Object.keys(newErrors).length === 0`. -/
def validateForm (fd : FormData) : Errors :=
  { crime_code :=
      if jsTrim fd.crime_code = "" then some "Crime/Penal Code is required" else none
    jurisdiction :=
      if jsTrim fd.jurisdiction = "" then some "Jurisdiction is required" else none
    additional_info :=
      if fd.additional_info ≠ "" ∧ fd.additional_info.length > 1000 then
        some "Additional information must be 1000 characters or less"
      else none }

/-- `Object.keys(newErrors).length === 0`: no key was added. -/
def errorsEmpty (e : Errors) : Bool :=
  e.crime_code.isNone && e.jurisdiction.isNone && e.additional_info.isNone

/-- The boolean returned by `validateForm`. -/
def validateFormOk (fd : FormData) : Bool :=
  errorsEmpty (validateForm fd)

/-- The confirmation object rendered by `renderConfirmation`:
`{ summary, key_details, questions, next_steps }` as returned by the
`/legal/confirm` endpoint. -/
structure Confirmation where
  summary : String
  key_details : List String
  questions : List String
  next_steps : String
  deriving DecidableEq, Repr

/-- A penalty value in the analysis JSON: either a plain value or a
nested object of key/value entries (cf. `typeof penalty === 'object'`
in `renderResults`).  JSON leaf values are modelled by their rendered
text. -/
inductive Penalty
  | str (s : String)
  | obj (entries : List (String × String))
  deriving DecidableEq, Repr

/-- The `legal_explanation` section of the analysis JSON, with the
fields `renderResults` accesses; fields read through optional chaining
(`?.`) or `|| {}` are `Option`s. -/
structure LegalExplanation where
  crime_name : String
  simple_explanation : String
  what_prosecution_must_prove : Option (List String)
  penalties : Option (List (String × Penalty))
  deriving DecidableEq, Repr

/-- One entry of `analytics.common_defenses`. -/
structure Defense where
  strategy : String
  success_rate : String
  frequency : String
  deriving DecidableEq, Repr

/-- `analytics.jurisdiction_stats`. -/
structure JurisdictionStats where
  total_cases_last_year : String
  conviction_rate : String
  deriving DecidableEq, Repr

/-- `analytics.success_rates`. -/
structure SuccessRates where
  dismissal : String
  deriving DecidableEq, Repr

/-- The `analytics` section of the analysis JSON. -/
structure Analytics where
  jurisdiction_stats : Option JurisdictionStats
  success_rates : Option SuccessRates
  common_defenses : Option (List Defense)
  deriving DecidableEq, Repr

/-- One case of `precedents.cases`. -/
structure CaseItem where
  case_name : String
  relevance_score : String
  key_issue : String
  outcome : String
  summary : String
  legal_principle : String
  citation : String
  deriving DecidableEq, Repr

/-- The `precedents` section of the analysis JSON. -/
structure Precedents where
  total_cases_found : String
  cases : Option (List CaseItem)
  deriving DecidableEq, Repr

/-- The `summary` section of the analysis JSON. -/
structure AnalysisSummary where
  key_points : Option (List String)
  recommended_actions : Option (List String)
  deriving DecidableEq, Repr

/-- The analysis JSON returned by `/legal/analyze`, restricted to the
fields the results view reads; each top-level section is guarded by a
truthiness check in the JSX, hence an `Option`. -/
structure Analysis where
  legal_explanation : Option LegalExplanation
  analytics : Option Analytics
  precedents : Option Precedents
  summary : Option AnalysisSummary
  deriving DecidableEq, Repr

/-- The `Dashboard` component state: the six `useState` variables. -/
structure DashState where
  activeTab : Tab
  formData : FormData
  loading : Bool
  confirmation : Option Confirmation
  analysis : Option Analysis
  errors : Errors
  deriving DecidableEq, Repr

/-- The initial mount state (the `useState` initial values,
Dashboard.js lines 10–19). -/
def initState : DashState :=
  { activeTab := Tab.form
    formData := { crime_code := "", jurisdiction := "", additional_info := "" }
    loading := false
    confirmation := none
    analysis := none
    errors := noErrors }

/-- The three input fields of the case-intake form. -/
inductive Field
  | crime_code
  | jurisdiction
  | additional_info
  deriving DecidableEq, Repr

/-- `{...prev, [name]: value}` on `formData`. -/
def setField (fd : FormData) (f : Field) (v : String) : FormData :=
  match f with
  | Field.crime_code => { fd with crime_code := v }
  | Field.jurisdiction => { fd with jurisdiction := v }
  | Field.additional_info => { fd with additional_info := v }

/-- Read an `errors` field. -/
def getError (e : Errors) (f : Field) : Option String :=
  match f with
  | Field.crime_code => e.crime_code
  | Field.jurisdiction => e.jurisdiction
  | Field.additional_info => e.additional_info

/-- `{...prev, [name]: ''}` on `errors`. -/
def setErrorEmpty (e : Errors) (f : Field) : Errors :=
  match f with
  | Field.crime_code => { e with crime_code := some "" }
  | Field.jurisdiction => { e with jurisdiction := some "" }
  | Field.additional_info => { e with additional_info := some "" }

/-- `handleInputChange` (Dashboard.js lines 21–35): update the field,
and clear its error (by writing `''`) when the error is truthy. -/
def handleInputChange (s : DashState) (f : Field) (v : String) : DashState :=
  { s with
    formData := setField s.formData f v
    errors :=
      if truthy (getError s.errors f) then setErrorEmpty s.errors f else s.errors }

/-- The outcome of an awaited HTTP POST: the parsed response data on
success, or the optional `error.response?.data?.error` message on
failure. -/
abbrev ApiResult (α : Type) : Type := Except (Option String) α

/-- `handleSubmitForConfirmation` (Dashboard.js lines 56–76), run
atomically (the form is disabled while `loading`).  Returns the new
state and the list of HTTP requests issued.  `validateForm` always
stores the fresh errors object; when it reports a violation the handler
returns before any request.  On success the response data becomes
`confirmation` and `activeTab` moves to `confirmation`; on failure only
a toast is shown.  `setLoading(true)`/`finally setLoading(false)`
cancel out. -/
def handleSubmitForConfirmation (s : DashState) (resp : ApiResult Confirmation) :
    DashState × List String :=
  let newErrors := validateForm s.formData
  let s₁ := { s with errors := newErrors }
  if errorsEmpty newErrors then
    match resp with
    | Except.ok data =>
        ({ s₁ with
            loading := false
            confirmation := some data
            activeTab := Tab.confirmation }, ["/legal/confirm"])
    | Except.error _ => ({ s₁ with loading := false }, ["/legal/confirm"])
  else
    (s₁, [])

/-- The synchronous prefix of `handleConfirmAndAnalyze` (Dashboard.js
lines 78–82): `setLoading(true); setActiveTab('analyzing')`, then the
request to `/legal/analyze` is issued and awaited. -/
def confirmAnalyzeStart (s : DashState) : DashState :=
  { s with loading := true, activeTab := Tab.analyzing }

/-- The continuation of `handleConfirmAndAnalyze` (Dashboard.js lines
83–94) once the awaited request settles: on success store the analysis
and move to `results`; on failure show a toast and move back to
`confirmation`; `finally setLoading(false)`. -/
def confirmAnalyzeFinish (s : DashState) (resp : ApiResult Analysis) : DashState :=
  match resp with
  | Except.ok data =>
      { s with loading := false, analysis := some data, activeTab := Tab.results }
  | Except.error _ =>
      { s with loading := false, activeTab := Tab.confirmation }

/-- `handleConfirmAndAnalyze` as a whole (no button is rendered in the
`analyzing` stage, so the two halves compose atomically). -/
def handleConfirmAndAnalyze (s : DashState) (resp : ApiResult Analysis) : DashState :=
  confirmAnalyzeFinish (confirmAnalyzeStart s) resp

/-- The `Back to Edit` button of the confirmation view
(Dashboard.js line 271): `() => setActiveTab('form')`. -/
def backToEdit (s : DashState) : DashState :=
  { s with activeTab := Tab.form }

/-- `resetForm` (Dashboard.js lines 97–107). -/
def resetForm (s : DashState) : DashState :=
  { s with
    formData := { crime_code := "", jurisdiction := "", additional_info := "" }
    confirmation := none
    analysis := none
    errors := noErrors
    activeTab := Tab.form }

/-- One UI event processed by the Dashboard.  Each constructor carries
the conditions under which its control is rendered and enabled:
the form's inputs and submit button exist in the `form` stage and are
`disabled={loading}`; the confirmation view's two buttons exist in the
`confirmation` stage inside `{confirmation && ...}` and are
`disabled={loading}`; the analyze continuation fires in the `analyzing`
stage; the `New Analysis` button exists in the `results` stage inside
`{analysis && ...}`. -/
inductive Step : DashState → DashState → Prop
  | input (s : DashState) (f : Field) (v : String) :
      s.activeTab = Tab.form → s.loading = false →
      Step s (handleInputChange s f v)
  | submit (s : DashState) (resp : ApiResult Confirmation) :
      s.activeTab = Tab.form → s.loading = false →
      Step s (handleSubmitForConfirmation s resp).1
  | analyzeStart (s : DashState) :
      s.activeTab = Tab.confirmation → s.confirmation.isSome → s.loading = false →
      Step s (confirmAnalyzeStart s)
  | analyzeFinish (s : DashState) (resp : ApiResult Analysis) :
      s.activeTab = Tab.analyzing → s.loading = true →
      Step s (confirmAnalyzeFinish s resp)
  | back (s : DashState) :
      s.activeTab = Tab.confirmation → s.confirmation.isSome → s.loading = false →
      Step s (backToEdit s)
  | reset (s : DashState) :
      s.activeTab = Tab.results → s.analysis.isSome →
      Step s (resetForm s)

/-- States reachable from the initial mount state by UI events. -/
inductive Reachable : DashState → Prop
  | init : Reachable initState
  | step {s t : DashState} : Reachable s → Step s t → Reachable t

/-- Position of each stage in the linear order
`form → confirmation → analyzing → results` of the claimed workflow. -/
def tabOrder : Tab → Nat
  | Tab.form => 0
  | Tab.confirmation => 1
  | Tab.analyzing => 2
  | Tab.results => 3

/-- JavaScript `String.prototype.replace` with a string pattern:
replaces the first occurrence only. -/
def replaceFirst (s pat rep : String) : String :=
  match s.splitOn pat with
  | [] => s
  | [x] => x
  | x :: y :: rest => x ++ rep ++ String.intercalate pat (y :: rest)

/-- Text nodes of one penalty entry of the `Potential Penalties`
block: `<strong>{type.replace('_', ' ').toUpperCase()}:</strong>`
followed by either the nested entries
(`<li><strong>{key.replace('_', ' ')}:</strong> {value}</li>`) or the
plain value (`<span>{penalty}</span>`). -/
def renderPenaltyEntry (tp : String) (p : Penalty) : List String :=
  [(replaceFirst tp "_" " ").toUpper, ":"] ++
    match p with
    | Penalty.str v => [v]
    | Penalty.obj es => es.flatMap (fun kv => [replaceFirst kv.1 "_" " ", ":", " ", kv.2])

/-- Text nodes of the Legal Decompiler card body
(`{analysis.legal_explanation && ...}`). -/
def renderLegal (le : LegalExplanation) : List String :=
  [le.crime_name, le.simple_explanation, "What the Prosecution Must Prove:"] ++
    (le.what_prosecution_must_prove.getD []) ++
    ["Potential Penalties:"] ++
    (le.penalties.getD []).flatMap (fun e => renderPenaltyEntry e.1 e.2)

/-- Text nodes of one defense strategy entry. -/
def renderDefense (d : Defense) : List String :=
  [d.strategy, "Success Rate: ", d.success_rate, "%", "Frequency: ", d.frequency, "%"]

/-- Text nodes of the Analytics Engine card body
(`{analysis.analytics && ...}`): the three stat items (values read
through `?.` render nothing when the section is absent), then the
common defense strategies. -/
def renderAnalytics (an : Analytics) : List String :=
  (an.jurisdiction_stats.elim [] (fun js => [js.total_cases_last_year])) ++
    ["Cases Last Year"] ++
    (an.jurisdiction_stats.elim [] (fun js => [js.conviction_rate])) ++
    ["%", "Conviction Rate"] ++
    (an.success_rates.elim [] (fun sr => [sr.dismissal])) ++
    ["%", "Dismissal Rate", "Common Defense Strategies:"] ++
    (an.common_defenses.getD []).flatMap renderDefense

/-- Text nodes of one precedent case entry. -/
def renderCase (c : CaseItem) : List String :=
  [c.case_name, c.relevance_score, "% relevant",
   "Key Issue:", " ", c.key_issue,
   "Outcome:", " ", c.outcome,
   "Summary:", " ", c.summary,
   "Legal Principle:", " ", c.legal_principle,
   "Citation:", " ", c.citation]

/-- Text nodes of the Precedent Explorer card body
(`{analysis.precedents && ...}`). -/
def renderPrecedents (pr : Precedents) : List String :=
  [pr.total_cases_found, " relevant cases found"] ++
    (pr.cases.getD []).flatMap renderCase

/-- Text nodes of the Executive Summary card
(`{analysis.summary && ...}`). -/
def renderSummary (sm : AnalysisSummary) : List String :=
  ["Executive Summary", "Key Points:"] ++
    (sm.key_points.getD []) ++
    ["Recommended Actions:"] ++
    (sm.recommended_actions.getD [])

/-- `renderResults` (Dashboard.js lines 331–504) as the list of text
nodes it produces, in document order.  The whole view is guarded by
`{analysis && ...}`; each card body is guarded by the truthiness of
its section. -/
def renderResults (analysis : Option Analysis) : List String :=
  match analysis with
  | none => []
  | some a =>
      ["Analysis Complete", "Comprehensive legal analysis for your case",
       "Legal Decompiler"] ++
        (a.legal_explanation.elim [] renderLegal) ++
        ["Analytics Engine"] ++
        (a.analytics.elim [] renderAnalytics) ++
        ["Precedent Explorer"] ++
        (a.precedents.elim [] renderPrecedents) ++
        (a.summary.elim [] renderSummary) ++
        ["New Analysis"]

/-- The leaf values of a penalty entry (the nested objects' values for
an object penalty, the value itself otherwise). -/
def penaltyValues : Penalty → List String
  | Penalty.str v => [v]
  | Penalty.obj es => es.map Prod.snd

/-- The returned values of the `legal_explanation` section. -/
def legalValues (le : LegalExplanation) : List String :=
  [le.crime_name, le.simple_explanation] ++
    (le.what_prosecution_must_prove.getD []) ++
    (le.penalties.getD []).flatMap (fun e => penaltyValues e.2)

/-- The returned values of the `analytics` section. -/
def analyticsValues (an : Analytics) : List String :=
  (an.jurisdiction_stats.elim [] (fun js => [js.total_cases_last_year, js.conviction_rate])) ++
    (an.success_rates.elim [] (fun sr => [sr.dismissal])) ++
    (an.common_defenses.getD []).flatMap (fun d => [d.strategy, d.success_rate, d.frequency])

/-- The returned values of one precedent case. -/
def caseValues (c : CaseItem) : List String :=
  [c.case_name, c.relevance_score, c.key_issue, c.outcome, c.summary,
   c.legal_principle, c.citation]

/-- The returned values of the `precedents` section. -/
def precedentsValues (pr : Precedents) : List String :=
  pr.total_cases_found :: (pr.cases.getD []).flatMap caseValues

/-- The returned values of the `summary` section. -/
def summaryValues (sm : AnalysisSummary) : List String :=
  (sm.key_points.getD []) ++ (sm.recommended_actions.getD [])

/-- The values of an analysis response that the results view displays:
every leaf value of every present section, collected structurally
(independently of how the view lays them out). -/
def analysisValues (a : Analysis) : List String :=
  (a.legal_explanation.elim [] legalValues) ++
    (a.analytics.elim [] analyticsValues) ++
    (a.precedents.elim [] precedentsValues) ++
    (a.summary.elim [] summaryValues)

end Dashboard

namespace AuthCtx

/-- A client-storage (localStorage) access performed by an operation. -/
inductive StorageOp
  | get (key : String)
  | set (key value : String)
  | remove (key : String)
  deriving DecidableEq, Repr

/-- The key a storage access touches. -/
def StorageOp.key : StorageOp → String
  | StorageOp.get k => k
  | StorageOp.set k _ => k
  | StorageOp.remove k => k

/-- Whether a storage access writes a value (localStorage.setItem). -/
def StorageOp.isSet : StorageOp → Bool
  | StorageOp.set _ _ => true
  | _ => false

/-- The `AuthProvider` state: the three `useState` variables plus the
persisted token (the value stored in localStorage under
`precedent_token`) and the axios default `Authorization` header. -/
structure AuthState where
  user : Option String
  loading : Bool
  isAuthenticated : Bool
  storedToken : Option String
  authHeader : Option String
  deriving DecidableEq, Repr

/-- The provider state on mount (AuthContext.js lines 16–18), before
`checkAuthStatus` runs: no user, loading, unauthenticated.  The
storage may already hold a token from an earlier session. -/
def mountState (tok : Option String) : AuthState :=
  { user := none
    loading := true
    isAuthenticated := false
    storedToken := tok
    authHeader := none }

/-- The data of a `/auth/verify` response: `{ success, username }`. -/
structure VerifyResp where
  success : Bool
  username : String
  deriving DecidableEq, Repr

/-- The data of a `/auth/login` response:
`{ success, token, username, message }` (`message` may be absent). -/
structure LoginResp where
  success : Bool
  token : String
  username : String
  message : Option String
  deriving DecidableEq, Repr

/-- What `login` returns to its caller:
`{ success: true }` or `{ success: false, message }`. -/
structure LoginResult where
  success : Bool
  message : Option String
  deriving DecidableEq, Repr

/-- The outcome of an awaited request: the response data, or the
optional `error.response?.data?.message` of a thrown error. -/
abbrev Net (α : Type) : Type := Except (Option String) α

/-- `checkAuthStatus` (AuthContext.js lines 24–44), run at startup.
Reads the token from storage; when present, posts `/auth/verify`.
On `response.data.success` the user is set, `isAuthenticated` becomes
true and the `Authorization` header is installed; otherwise the token
is removed.  A thrown error also removes the token (the `catch`
block).  `finally` clears `loading`.  Returns the new state, the
storage accesses and the HTTP requests issued. -/
def checkAuthStatus (s : AuthState) (resp : Net VerifyResp) :
    AuthState × List StorageOp × List String :=
  match s.storedToken with
  | none => ({ s with loading := false }, [StorageOp.get "precedent_token"], [])
  | some token =>
      match resp with
      | Except.ok r =>
          if r.success then
            ({ s with
                user := some r.username
                isAuthenticated := true
                authHeader := some ("Bearer " ++ token)
                loading := false },
             [StorageOp.get "precedent_token"], ["/auth/verify"])
          else
            ({ s with storedToken := none, loading := false },
             [StorageOp.get "precedent_token", StorageOp.remove "precedent_token"],
             ["/auth/verify"])
      | Except.error _ =>
          ({ s with storedToken := none, loading := false },
           [StorageOp.get "precedent_token", StorageOp.remove "precedent_token"],
           ["/auth/verify"])

/-- `login` (AuthContext.js lines 46–80).  Posts `/auth/login`; on
`response.data.success` it stores the returned token under
`precedent_token`, sets the user, sets the `Authorization` header and
returns `{ success: true }`; on a failure response or a thrown error
it changes none of those and returns `{ success: false, message }`
(the thrown-error message defaults to a fixed string).  `finally`
clears `loading`. -/
def login (s : AuthState) (resp : Net LoginResp) :
    AuthState × List StorageOp × List String × LoginResult :=
  match resp with
  | Except.ok r =>
      if r.success then
        ({ s with
            user := some r.username
            isAuthenticated := true
            storedToken := some r.token
            authHeader := some ("Bearer " ++ r.token)
            loading := false },
         [StorageOp.set "precedent_token" r.token], ["/auth/login"],
         { success := true, message := none })
      else
        ({ s with loading := false }, [], ["/auth/login"],
         { success := false, message := r.message })
  | Except.error msg =>
      ({ s with loading := false }, [], ["/auth/login"],
       { success := false,
         message := some (msg.getD "Login failed. Please try again.") })

/-- `logout` (AuthContext.js lines 82–88): removes the stored token,
deletes the `Authorization` header, clears the user and the
authentication flag, and shows a toast.  It issues no HTTP request. -/
def logout (s : AuthState) : AuthState × List StorageOp × List String :=
  ({ s with
      user := none
      isAuthenticated := false
      storedToken := none
      authHeader := none },
   [StorageOp.remove "precedent_token"], [])

/-- Modelled from the spec: the `api` service module (an HTTP client
instance) is not among the provided sources; per the specification
there is "no queuing, batching, concurrency, or persistence beyond a
single token in client storage", so the HTTP client itself performs no
client-storage access. -/
def apiClientStorageOps : List StorageOp := []

/-- Every storage access in the list touches only the
`precedent_token` key. -/
def onlyTokenKey (ops : List StorageOp) : Bool :=
  ops.all (fun op => op.key = "precedent_token")

/-- Whether a `/auth/verify` exchange reports success:
the request succeeded and `response.data.success` is truthy. -/
def verifySucceeds (resp : Net VerifyResp) : Bool :=
  match resp with
  | Except.ok r => r.success
  | Except.error _ => false

/-- Whether a `/auth/login` exchange reports success. -/
def loginSucceeds (resp : Net LoginResp) : Bool :=
  match resp with
  | Except.ok r => r.success
  | Except.error _ => false

end AuthCtx

namespace Dashboard

/-- A sample confirmation response. -/
def confEx : Confirmation :=
  { summary := "A DUI case in California"
    key_details := ["Code: DUI", "Jurisdiction: California"]
    questions := ["Is the code correct?"]
    next_steps := "Proceed with analysis" }

/-- A sample analysis response with every section present. -/
def analysisEx : Analysis :=
  { legal_explanation :=
      some { crime_name := "Driving Under the Influence"
             simple_explanation := "Driving while impaired."
             what_prosecution_must_prove := some ["The defendant drove."]
             penalties :=
               some [("fines", Penalty.str "up to $1000"),
                     ("jail_time", Penalty.obj [("first_offense", "up to 6 months")])] }
    analytics :=
      some { jurisdiction_stats :=
               some { total_cases_last_year := "1247", conviction_rate := "73.2" }
             success_rates := some { dismissal := "12" }
             common_defenses :=
               some [{ strategy := "No probable cause"
                       success_rate := "25", frequency := "30" }] }
    precedents :=
      some { total_cases_found := "23"
             cases :=
               some [{ case_name := "People v. Doe", relevance_score := "95"
                       key_issue := "stop legality", outcome := "dismissed"
                       summary := "stop suppressed", legal_principle := "4th Amendment"
                       citation := "123 Cal.App. 456" }] }
    summary :=
      some { key_points := some ["Strong suppression argument"]
             recommended_actions := some ["Consult counsel"] } }

/-- A sample state in the `results` stage. -/
def resultsStateEx : DashState :=
  { activeTab := Tab.results
    formData := { crime_code := "DUI", jurisdiction := "California", additional_info := "" }
    loading := false
    confirmation := some confEx
    analysis := some analysisEx
    errors := noErrors }

/-- A sample state in the `confirmation` stage. -/
def confirmationStateEx : DashState :=
  { activeTab := Tab.confirmation
    formData := { crime_code := "DUI", jurisdiction := "California", additional_info := "" }
    loading := false
    confirmation := some confEx
    analysis := none
    errors := noErrors }

/-- Trace state: the code field typed into the fresh form. -/
def wState1 : DashState := handleInputChange initState Field.crime_code "DUI"

/-- Trace state: the jurisdiction field typed next. -/
def wState2 : DashState := handleInputChange wState1 Field.jurisdiction "California"

/-- Trace state: the form submitted, confirmation received. -/
def wState3 : DashState := (handleSubmitForConfirmation wState2 (Except.ok confEx)).1

/-- Trace state: analysis started. -/
def wState4 : DashState := confirmAnalyzeStart wState3

/-- Trace state: analysis succeeded, results shown. -/
def wState5 : DashState := confirmAnalyzeFinish wState4 (Except.ok analysisEx)

end Dashboard

namespace AuthCtx

/-- A sample authenticated provider state. -/
def authStateEx : AuthState :=
  { user := some "onebaldegg"
    loading := false
    isAuthenticated := true
    storedToken := some "tok123"
    authHeader := some "Bearer tok123" }

/-- A sample failure response of the login endpoint that carries no
message field. -/
def loginFailRespEx : LoginResp :=
  { success := false, token := "", username := "", message := none }

/-- A sample success response of the login endpoint. -/
def loginOkRespEx : LoginResp :=
  { success := true, token := "tok123", username := "onebaldegg", message := none }

/-- A sample failure response of the verify endpoint. -/
def verifyFailRespEx : VerifyResp :=
  { success := false, username := "" }

end AuthCtx

namespace Dashboard

theorem validateFormOk_iff (fd : FormData) :
    validateFormOk fd = true ↔
      jsTrim fd.crime_code ≠ "" ∧ jsTrim fd.jurisdiction ≠ "" ∧
        fd.additional_info.length ≤ 1000 := by
  have hempty : ("" : String).length = 0 := by decide
  unfold validateFormOk errorsEmpty validateForm
  by_cases h3 : fd.additional_info.length > 1000
  · have hne : fd.additional_info ≠ "" := by
      intro he
      rw [he, hempty] at h3
      omega
    by_cases h1 : jsTrim fd.crime_code = "" <;>
      by_cases h2 : jsTrim fd.jurisdiction = "" <;>
        simp [h1, h2, h3, hne]
  · have h3' : fd.additional_info.length ≤ 1000 := Nat.not_lt.mp h3
    by_cases h1 : jsTrim fd.crime_code = "" <;>
      by_cases h2 : jsTrim fd.jurisdiction = "" <;>
        simp [h1, h2, h3, h3']

theorem validateForm_length_error (fd : FormData) :
    (validateForm fd).additional_info.isSome ↔ fd.additional_info.length > 1000 := by
  have hempty : ("" : String).length = 0 := by decide
  unfold validateForm
  by_cases h3 : fd.additional_info.length > 1000
  · have hne : fd.additional_info ≠ "" := by
      intro he
      rw [he, hempty] at h3
      omega
    simp [h3, hne]
  · simp [h3]

/-- C1: the case-intake validation accepts the form iff `crime_code`
and `jurisdiction` are non-empty after trimming whitespace and
`additional_info` is at most 1000 characters long; it records an error
message for exactly the violated fields. -/
theorem c1_validateForm_accepts_iff (fd : FormData) :
    (validateFormOk fd = true ↔
      jsTrim fd.crime_code ≠ "" ∧ jsTrim fd.jurisdiction ≠ "" ∧
        fd.additional_info.length ≤ 1000) ∧
    ((validateForm fd).crime_code.isSome ↔ jsTrim fd.crime_code = "") ∧
    ((validateForm fd).jurisdiction.isSome ↔ jsTrim fd.jurisdiction = "") ∧
    ((validateForm fd).additional_info.isSome ↔ fd.additional_info.length > 1000) := by
  refine ⟨validateFormOk_iff fd, ?_, ?_, validateForm_length_error fd⟩
  · unfold validateForm
    by_cases h : jsTrim fd.crime_code = "" <;> simp [h]
  · unfold validateForm
    by_cases h : jsTrim fd.jurisdiction = "" <;> simp [h]

/-- C2 counterexample: from the `results` stage the `New Analysis`
handler (`resetForm`) is an enabled UI event, and it moves `activeTab`
back to `form`, strictly earlier in the claimed linear order — so not
every handler transition moves forward. -/
theorem c2_counterexample :
    Step resultsStateEx (resetForm resultsStateEx) ∧
      tabOrder (resetForm resultsStateEx).activeTab <
        tabOrder resultsStateEx.activeTab := by
  refine ⟨Step.reset resultsStateEx rfl rfl, ?_⟩
  decide

/-- C2 (amended): `activeTab` starts at `form`, and every handler
transition either moves forward along
`form → confirmation → analyzing → results`, or is one of the three
backward moves present in the code: a return to `form` (`resetForm`,
the `Back to Edit` button) or the failed-analysis return from
`analyzing` to `confirmation`. -/
theorem c2_workflow_direction :
    initState.activeTab = Tab.form ∧
    ∀ s t : DashState, Step s t →
      tabOrder s.activeTab ≤ tabOrder t.activeTab ∨
        t.activeTab = Tab.form ∨
        (s.activeTab = Tab.analyzing ∧ t.activeTab = Tab.confirmation) := by
  refine ⟨rfl, ?_⟩
  intro s t hst
  cases hst with
  | input f v hTab hLoad =>
      left
      simp [handleInputChange]
  | submit resp hTab hLoad =>
      left
      rw [hTab]
      exact Nat.zero_le _
  | analyzeStart hTab hConf hLoad =>
      left
      rw [hTab]
      simp [confirmAnalyzeStart, tabOrder]
  | analyzeFinish resp hTab hLoad =>
      cases resp with
      | ok data =>
          left
          rw [hTab]
          simp [confirmAnalyzeFinish, tabOrder]
      | error e =>
          right; right
          exact ⟨hTab, rfl⟩
  | back hTab hConf hLoad =>
      right; left
      rfl
  | reset hTab hAn =>
      right; left
      rfl

/-- C2 witness: a concrete enabled transition, classified by the
amended statement. -/
theorem c2_workflow_direction_witness :
    tabOrder confirmationStateEx.activeTab ≤
        tabOrder (confirmAnalyzeStart confirmationStateEx).activeTab ∨
      (confirmAnalyzeStart confirmationStateEx).activeTab = Tab.form ∨
      (confirmationStateEx.activeTab = Tab.analyzing ∧
        (confirmAnalyzeStart confirmationStateEx).activeTab = Tab.confirmation) :=
  c2_workflow_direction.2 confirmationStateEx (confirmAnalyzeStart confirmationStateEx)
    (Step.analyzeStart confirmationStateEx rfl rfl rfl)

/-- C3: the `/legal/confirm` request is issued only when client-side
validation succeeds.  On a validation failure no request is sent and
`activeTab` and `confirmation` are unchanged; on success the request is
sent, and a successful response becomes `confirmation` while `activeTab`
moves to `confirmation`. -/
theorem c3_submit_gated_by_validation (s : DashState) (resp : ApiResult Confirmation) :
    (validateFormOk s.formData = false →
        (handleSubmitForConfirmation s resp).2 = [] ∧
        (handleSubmitForConfirmation s resp).1.activeTab = s.activeTab ∧
        (handleSubmitForConfirmation s resp).1.confirmation = s.confirmation) ∧
    (validateFormOk s.formData = true →
        (handleSubmitForConfirmation s resp).2 = ["/legal/confirm"] ∧
        ∀ c, resp = Except.ok c →
          (handleSubmitForConfirmation s resp).1.confirmation = some c ∧
          (handleSubmitForConfirmation s resp).1.activeTab = Tab.confirmation) := by
  unfold handleSubmitForConfirmation
  unfold validateFormOk
  by_cases hv : errorsEmpty (validateForm s.formData)
  · cases resp with
    | ok c => simp [hv]
    | error e => simp [hv]
  · simp [hv]

/-- C3 witness: a concrete valid submission. -/
theorem c3_submit_gated_by_validation_witness :
    (handleSubmitForConfirmation confirmationStateEx (Except.ok confEx)).2 =
        ["/legal/confirm"] ∧
      ∀ c, (Except.ok confEx : ApiResult Confirmation) = Except.ok c →
        (handleSubmitForConfirmation confirmationStateEx (Except.ok confEx)).1.confirmation =
            some c ∧
          (handleSubmitForConfirmation confirmationStateEx
              (Except.ok confEx)).1.activeTab = Tab.confirmation :=
  (c3_submit_gated_by_validation confirmationStateEx (Except.ok confEx)).2 rfl

/-- C10: when the `/legal/analyze` request fails, the workflow returns
from `analyzing` to `confirmation` and the form data, confirmation data
and previously stored analysis are unchanged. -/
theorem c10_analyze_error_returns_to_confirmation (s : DashState) (msg : Option String)
    (_hTab : s.activeTab = Tab.confirmation) :
    (handleConfirmAndAnalyze s (Except.error msg)).activeTab = Tab.confirmation ∧
    (handleConfirmAndAnalyze s (Except.error msg)).formData = s.formData ∧
    (handleConfirmAndAnalyze s (Except.error msg)).confirmation = s.confirmation ∧
    (handleConfirmAndAnalyze s (Except.error msg)).analysis = s.analysis := by
  simp [handleConfirmAndAnalyze, confirmAnalyzeStart, confirmAnalyzeFinish]

/-- C10 witness: a concrete failed analysis from the confirmation stage. -/
theorem c10_analyze_error_witness :
    (handleConfirmAndAnalyze confirmationStateEx
        (Except.error (some "Analysis failed"))).activeTab = Tab.confirmation ∧
    (handleConfirmAndAnalyze confirmationStateEx
        (Except.error (some "Analysis failed"))).formData = confirmationStateEx.formData ∧
    (handleConfirmAndAnalyze confirmationStateEx
        (Except.error (some "Analysis failed"))).confirmation =
      confirmationStateEx.confirmation ∧
    (handleConfirmAndAnalyze confirmationStateEx
        (Except.error (some "Analysis failed"))).analysis = confirmationStateEx.analysis :=
  c10_analyze_error_returns_to_confirmation confirmationStateEx (some "Analysis failed") rfl

end Dashboard

namespace AuthCtx

/-- C4: at startup `checkAuthStatus` authenticates exactly when a token
is stored under `precedent_token` and the verify endpoint reports
success; in every other case (no token, failure response, or thrown
request error) the user stays unauthenticated and no token remains in
client storage. -/
theorem c4_checkAuthStatus_contract (tok : Option String) (resp : Net VerifyResp) :
    ((checkAuthStatus (mountState tok) resp).1.isAuthenticated =
        (tok.isSome && verifySucceeds resp)) ∧
    ((tok.isSome && verifySucceeds resp) = false →
        (checkAuthStatus (mountState tok) resp).1.isAuthenticated = false ∧
        (checkAuthStatus (mountState tok) resp).1.user = none ∧
        (checkAuthStatus (mountState tok) resp).1.storedToken = none) := by
  cases tok with
  | none =>
      cases resp with
      | ok r => simp [checkAuthStatus, mountState, verifySucceeds]
      | error e => simp [checkAuthStatus, mountState, verifySucceeds]
  | some t =>
      cases resp with
      | ok r =>
          by_cases hr : r.success = true
          · simp [checkAuthStatus, mountState, verifySucceeds, hr]
          · simp only [Bool.not_eq_true] at hr
            simp [checkAuthStatus, mountState, verifySucceeds, hr]
      | error e => simp [checkAuthStatus, mountState, verifySucceeds]

/-- C4 witness: a stored token whose verification reports failure is
removed and leaves the session unauthenticated. -/
theorem c4_checkAuthStatus_witness :
    (checkAuthStatus (mountState (some "tok123"))
        (Except.ok verifyFailRespEx)).1.isAuthenticated = false ∧
    (checkAuthStatus (mountState (some "tok123"))
        (Except.ok verifyFailRespEx)).1.user = none ∧
    (checkAuthStatus (mountState (some "tok123"))
        (Except.ok verifyFailRespEx)).1.storedToken = none :=
  (c4_checkAuthStatus_contract (some "tok123") (Except.ok verifyFailRespEx)).2 rfl

/-- C5 counterexample: when the login endpoint reports failure without
a `message` field, `login` leaves the session unchanged but its failure
result carries no message — refuting the claim that a rejected login
always returns failure with a message. -/
theorem c5_counterexample :
    loginSucceeds (Except.ok loginFailRespEx) = false ∧
    (login (mountState none) (Except.ok loginFailRespEx)).2.2.2.success = false ∧
    (login (mountState none) (Except.ok loginFailRespEx)).2.2.2.message = none :=
  ⟨rfl, rfl, rfl⟩

/-- C5 (amended): `login` persists the token, sets the user and returns
success exactly when the endpoint reports success; on a failure
response or a thrown request error it persists nothing, leaves the
user, authentication flag and stored token unchanged, and returns
failure carrying the endpoint's message when one is provided (a thrown
error always yields a message, defaulting to a fixed string; a failure
response may omit it). -/
theorem c5_login_contract (s : AuthState) (resp : Net LoginResp) :
    (loginSucceeds resp = true →
        ∃ r, resp = Except.ok r ∧
          login s resp =
            ({ s with
                user := some r.username
                isAuthenticated := true
                storedToken := some r.token
                authHeader := some ("Bearer " ++ r.token)
                loading := false },
             [StorageOp.set "precedent_token" r.token], ["/auth/login"],
             { success := true, message := none })) ∧
    (loginSucceeds resp = false →
        (login s resp).1.user = s.user ∧
        (login s resp).1.isAuthenticated = s.isAuthenticated ∧
        (login s resp).1.storedToken = s.storedToken ∧
        (login s resp).2.1 = [] ∧
        (login s resp).2.2.2.success = false ∧
        (∀ m, resp = Except.error m →
            (login s resp).2.2.2.message =
              some (m.getD "Login failed. Please try again.")) ∧
        (∀ r, resp = Except.ok r → (login s resp).2.2.2.message = r.message)) := by
  cases resp with
  | ok r =>
      by_cases hr : r.success = true
      · constructor
        · intro _
          exact ⟨r, rfl, by simp [login, hr]⟩
        · intro hcon
          simp [loginSucceeds, hr] at hcon
      · simp only [Bool.not_eq_true] at hr
        constructor
        · intro hcon
          simp [loginSucceeds, hr] at hcon
        · intro _
          simp [login, hr]
  | error e =>
      constructor
      · intro hcon
        simp [loginSucceeds] at hcon
      · intro _
        simp [login]

/-- C5 witness: a successful login installs the returned token. -/
theorem c5_login_contract_witness :
    ∃ r, (Except.ok loginOkRespEx : Net LoginResp) = Except.ok r ∧
      login (mountState none) (Except.ok loginOkRespEx) =
        ({ (mountState none) with
            user := some r.username
            isAuthenticated := true
            storedToken := some r.token
            authHeader := some ("Bearer " ++ r.token)
            loading := false },
         [StorageOp.set "precedent_token" r.token], ["/auth/login"],
         { success := true, message := none }) :=
  (c5_login_contract (mountState none) (Except.ok loginOkRespEx)).1 rfl

/-- C6 counterexample: `logout` issues no HTTP request at all — the
list of requests it sends is empty, refuting the claim that it calls
an external logout endpoint. -/
theorem c6_counterexample :
    (logout authStateEx).2.2 = [] :=
  rfl

/-- C6 (amended): `logout` clears the current-user state and the
authentication flag, removes the persisted bearer token and the
`Authorization` header, and issues no HTTP request. -/
theorem c6_logout_local_only (s : AuthState) :
    (logout s).1.user = none ∧
    (logout s).1.isAuthenticated = false ∧
    (logout s).1.storedToken = none ∧
    (logout s).1.authHeader = none ∧
    (logout s).2.1 = [StorageOp.remove "precedent_token"] ∧
    (logout s).2.2 = [] :=
  ⟨rfl, rfl, rfl, rfl, rfl, rfl⟩

/-- C7: every client-storage access of every auth operation touches
only the key `precedent_token`, and at most one value (the token) is
ever written; the HTTP client itself (modelled from the spec) performs
no storage access. -/
theorem c7_storage_only_token_key :
    (∀ (s : AuthState) (resp : Net VerifyResp),
        onlyTokenKey (checkAuthStatus s resp).2.1 = true ∧
        ((checkAuthStatus s resp).2.1.filter StorageOp.isSet).length = 0) ∧
    (∀ (s : AuthState) (resp : Net LoginResp),
        onlyTokenKey (login s resp).2.1 = true ∧
        ((login s resp).2.1.filter StorageOp.isSet).length ≤ 1) ∧
    (∀ s : AuthState,
        onlyTokenKey (logout s).2.1 = true ∧
        ((logout s).2.1.filter StorageOp.isSet).length = 0) ∧
    apiClientStorageOps = [] := by
  refine ⟨?_, ?_, ?_, rfl⟩
  · intro s resp
    cases hst : s.storedToken with
    | none => simp [checkAuthStatus, hst, onlyTokenKey, StorageOp.key, StorageOp.isSet]
    | some t =>
        cases resp with
        | ok r =>
            by_cases hr : r.success = true
            · simp [checkAuthStatus, hst, hr, onlyTokenKey, StorageOp.key, StorageOp.isSet]
            · simp only [Bool.not_eq_true] at hr
              simp [checkAuthStatus, hst, hr, onlyTokenKey, StorageOp.key, StorageOp.isSet]
        | error e =>
            simp [checkAuthStatus, hst, onlyTokenKey, StorageOp.key, StorageOp.isSet]
  · intro s resp
    cases resp with
    | ok r =>
        by_cases hr : r.success = true
        · simp [login, hr, onlyTokenKey, StorageOp.key, StorageOp.isSet]
        · simp only [Bool.not_eq_true] at hr
          simp [login, hr, onlyTokenKey, StorageOp.key, StorageOp.isSet]
    | error e => simp [login, onlyTokenKey, StorageOp.key, StorageOp.isSet]
  · intro s
    simp [logout, onlyTokenKey, StorageOp.key, StorageOp.isSet]

end AuthCtx

namespace Dashboard

theorem penaltyValues_sub (tp : String) (p : Penalty) :
    ∀ v ∈ penaltyValues p, v ∈ renderPenaltyEntry tp p := by
  intro v hv
  cases p with
  | str s =>
      simp only [penaltyValues, List.mem_singleton] at hv
      simp [renderPenaltyEntry, hv]
  | obj es =>
      simp only [penaltyValues, List.mem_map] at hv
      obtain ⟨kv, hkv, hv⟩ := hv
      simp only [renderPenaltyEntry, List.mem_append, List.mem_cons, List.mem_flatMap,
        List.not_mem_nil, or_false] at *
      exact Or.inr ⟨kv, hkv, by tauto⟩

theorem legalValues_sub (le : LegalExplanation) :
    ∀ v ∈ legalValues le, v ∈ renderLegal le := by
  intro v hv
  unfold legalValues at hv
  unfold renderLegal
  simp only [List.mem_append, List.mem_cons, List.mem_flatMap,
    List.not_mem_nil, or_false] at hv ⊢
  rcases hv with ((h | h) | h) | ⟨e, he, hv⟩
  · tauto
  · tauto
  · tauto
  · exact Or.inr ⟨e, he, penaltyValues_sub e.1 e.2 v hv⟩

theorem defenseValues_sub (d : Defense) :
    ∀ v ∈ [d.strategy, d.success_rate, d.frequency], v ∈ renderDefense d := by
  intro v hv
  simp only [List.mem_cons, List.not_mem_nil, or_false] at hv
  simp only [renderDefense, List.mem_cons, List.not_mem_nil, or_false]
  tauto

theorem analyticsValues_sub (an : Analytics) :
    ∀ v ∈ analyticsValues an, v ∈ renderAnalytics an := by
  intro v hv
  unfold analyticsValues at hv
  unfold renderAnalytics
  rcases List.mem_append.mp hv with hv1 | hdefv
  · rcases List.mem_append.mp hv1 with hjs | hsr
    · cases hj : an.jurisdiction_stats with
      | none =>
          rw [hj] at hjs
          simp at hjs
      | some js =>
          rw [hj] at hjs
          simp only [Option.elim, List.mem_cons, List.not_mem_nil, or_false] at hjs
          simp only [Option.elim, List.mem_append, List.mem_cons, List.not_mem_nil,
            or_false]
          tauto
    · cases hs : an.success_rates with
      | none =>
          rw [hs] at hsr
          simp at hsr
      | some sr =>
          rw [hs] at hsr
          simp only [Option.elim, List.mem_cons, List.not_mem_nil, or_false] at hsr
          simp only [Option.elim, List.mem_append, List.mem_cons, List.not_mem_nil,
            or_false]
          tauto
  · obtain ⟨d, hd, hvd⟩ := List.mem_flatMap.mp hdefv
    exact List.mem_append_right _
      (List.mem_flatMap.mpr ⟨d, hd, defenseValues_sub d v (by simpa using hvd)⟩)

theorem caseValues_sub (c : CaseItem) :
    ∀ v ∈ caseValues c, v ∈ renderCase c := by
  intro v hv
  simp only [caseValues, List.mem_cons, List.not_mem_nil, or_false] at hv
  simp only [renderCase, List.mem_cons, List.not_mem_nil, or_false]
  tauto

theorem precedentsValues_sub (pr : Precedents) :
    ∀ v ∈ precedentsValues pr, v ∈ renderPrecedents pr := by
  intro v hv
  unfold precedentsValues at hv
  unfold renderPrecedents
  rcases List.mem_cons.mp hv with h | hcs
  · exact List.mem_append_left _ (by simp [h])
  · obtain ⟨c, hc, hvc⟩ := List.mem_flatMap.mp hcs
    exact List.mem_append_right _
      (List.mem_flatMap.mpr ⟨c, hc, caseValues_sub c v hvc⟩)

theorem summaryValues_sub (sm : AnalysisSummary) :
    ∀ v ∈ summaryValues sm, v ∈ renderSummary sm := by
  intro v hv
  unfold summaryValues at hv
  unfold renderSummary
  simp only [List.mem_append, List.mem_cons, List.not_mem_nil, or_false] at hv ⊢
  tauto

/-- C8: every leaf value of the analysis response that the results view
displays appears verbatim among the view's text nodes; the view adds
labels and formatting but applies no transformation to the returned
values. -/
theorem c8_render_verbatim (a : Analysis) (v : String) :
    v ∈ analysisValues a → v ∈ renderResults (some a) := by
  intro hv
  unfold analysisValues at hv
  unfold renderResults
  rcases List.mem_append.mp hv with hv1 | hsm
  rcases List.mem_append.mp hv1 with hv2 | hpr
  rcases List.mem_append.mp hv2 with hle | han
  · cases hl : a.legal_explanation with
    | none =>
        rw [hl] at hle
        simp at hle
    | some le =>
        rw [hl] at hle
        simp only [hl, Option.elim] at hle ⊢
        exact List.mem_append_left _ (List.mem_append_left _ (List.mem_append_left _
          (List.mem_append_left _ (List.mem_append_left _ (List.mem_append_left _
            (List.mem_append_right _ (legalValues_sub le v hle)))))))
  · cases ha : a.analytics with
    | none =>
        rw [ha] at han
        simp at han
    | some an =>
        rw [ha] at han
        simp only [ha, Option.elim] at han ⊢
        exact List.mem_append_left _ (List.mem_append_left _ (List.mem_append_left _
          (List.mem_append_left _ (List.mem_append_right _
            (analyticsValues_sub an v han)))))
  · cases hp : a.precedents with
    | none =>
        rw [hp] at hpr
        simp at hpr
    | some pr =>
        rw [hp] at hpr
        simp only [hp, Option.elim] at hpr ⊢
        exact List.mem_append_left _ (List.mem_append_left _ (List.mem_append_right _
          (precedentsValues_sub pr v hpr)))
  · cases hsum : a.summary with
    | none =>
        rw [hsum] at hsm
        simp at hsm
    | some sm =>
        rw [hsum] at hsm
        simp only [hsum, Option.elim] at hsm ⊢
        exact List.mem_append_left _ (List.mem_append_right _
          (summaryValues_sub sm v hsm))

/-- C8 witness: the crime name of a sample response appears verbatim in
the rendered text. -/
theorem c8_render_verbatim_witness :
    "Driving Under the Influence" ∈ analysisValues analysisEx ∧
      "Driving Under the Influence" ∈ renderResults (some analysisEx) :=
  ⟨by decide, c8_render_verbatim analysisEx "Driving Under the Influence" (by decide)⟩

end Dashboard

namespace Dashboard

theorem step_results_not_loading {s t : DashState} (hst : Step s t)
    (_hs : s.activeTab = Tab.results → s.loading = false) :
    t.activeTab = Tab.results → t.loading = false := by
  cases hst with
  | input f v hTab hLoad =>
      intro _
      simpa [handleInputChange] using hLoad
  | submit resp hTab hLoad =>
      intro _
      unfold handleSubmitForConfirmation
      by_cases hv : errorsEmpty (validateForm s.formData)
      · cases resp <;> simp [hv]
      · simp [hv, hLoad]
  | analyzeStart hTab hConf hLoad =>
      intro htr
      simp [confirmAnalyzeStart] at htr
  | analyzeFinish resp hTab hLoad =>
      intro _
      cases resp <;> simp [confirmAnalyzeFinish]
  | back hTab hConf hLoad =>
      intro _
      simpa [backToEdit] using hLoad
  | reset hTab hAn =>
      intro htr
      simp [resetForm] at htr

theorem reachable_results_not_loading {s : DashState} (h : Reachable s) :
    s.activeTab = Tab.results → s.loading = false := by
  induction h with
  | init =>
      intro hTab
      simp [initState] at hTab
  | step hr hst ih =>
      exact step_results_not_loading hst ih

/-- C9: `resetForm` restores the initial mount state — all three form
fields empty, confirmation and analysis cleared, no field errors,
workflow back at `form` — from any state, idempotently; and on any
reachable state of the `results` stage (the only stage whose UI offers
`resetForm`) the resulting component state equals the initial mount
state exactly. -/
theorem c9_resetForm_restores_initial :
    (∀ s : DashState,
        (resetForm s).formData =
            { crime_code := "", jurisdiction := "", additional_info := "" } ∧
          (resetForm s).confirmation = none ∧
          (resetForm s).analysis = none ∧
          (resetForm s).errors = noErrors ∧
          (resetForm s).activeTab = Tab.form ∧
          resetForm (resetForm s) = resetForm s) ∧
    ∀ s : DashState, Reachable s → s.activeTab = Tab.results →
      resetForm s = initState := by
  constructor
  · intro s
    exact ⟨rfl, rfl, rfl, rfl, rfl, rfl⟩
  · intro s hr hTab
    have hl : s.loading = false := reachable_results_not_loading hr hTab
    simp [resetForm, initState, noErrors, hl]

theorem wState5_reachable : Reachable wState5 :=
  Reachable.step
    (Reachable.step
      (Reachable.step
        (Reachable.step
          (Reachable.step Reachable.init
            (Step.input initState Field.crime_code "DUI" rfl rfl))
          (Step.input wState1 Field.jurisdiction "California" (by decide) (by decide)))
        (Step.submit wState2 (Except.ok confEx) (by decide) (by decide)))
      (Step.analyzeStart wState3 (by decide) (by decide) (by decide)))
    (Step.analyzeFinish wState4 (Except.ok analysisEx) (by decide) (by decide))

/-- C9 witness: a concrete reachable `results` state is reset exactly
to the initial mount state. -/
theorem c9_resetForm_restores_initial_witness :
    resetForm wState5 = initState :=
  c9_resetForm_restores_initial.2 wState5 wState5_reachable (by decide)

end Dashboard
